import Mathlib

/-!
Verification of the Plasmo RP activity announcer (`src/main.py`) against its
natural-language specification.

The Python program is an asynchronous watchdog built around a single class
`Announcer`.  This file gives a shallow embedding of the parts of the program
the claims are about, translated from the source:

* Python `set`s (`targeted_players`, `online_players`) are modelled as Lean
  lists without duplicates; the list order stands for the (deterministic but
  unspecified) iteration order of the Python set.
* A completed HTTP exchange with the Plasmo API is modelled as a
  `PlasmoResponse` record carrying the pieces of the response the code reads
  (content type, status code, parsed JSON body); the remote service during one
  reconciliation cycle is a function from player id (resp. nickname) to such a
  response.
* Exceptions (`ResponseError`) are modelled with `Except`.
* `asyncio.gather(*coros)` with its default `return_exceptions=False` is
  modelled by `gatherExcept`: on an all-success batch it returns the list of
  results, otherwise it re-raises the first failure (the sibling coroutines are
  not cancelled by the real `gather`, but their results are discarded and the
  awaiting caller sees the exception).
* Telegram message delivery inside `execute`/`handle_input` is recorded as a
  list of logical alert events `(nick, alert_key)`, one per `send_message`
  call whose alert key is configured (mirroring `send_message`'s early
  return); the per-owner fan-out and its failure modes are modelled separately
  in `send_message` itself.
-/

namespace Announcer

/-- Exception raised by `query_plasmo` / `query_telegram` (class
`ResponseError` in the source): a message, a reference code such as
`"BAD_CONTENT_TYPE"` or `"BAD_STATUS_CODE"`, and the offending body. -/
structure ResponseError where
  message : String
  reference : String
  body : String
  deriving DecidableEq

/-- Fields of the `data` JSON object returned by `/user/profile` that the code
reads.  `has_access` and `banned` are `Option` because the code explicitly
checks for their absence; `on_server` is the value of
`data["stats"]["on_server"]` (`none` meaning JSON `null`, the player being on
no server). -/
structure Profile where
  id : Nat
  nick : String
  has_access : Option Bool
  banned : Option Bool
  on_server : Option String
  deriving DecidableEq

/-- A completed HTTP exchange with the Plasmo API, carrying everything
`query_plasmo` inspects: the `Content-Type` header, the status code, the
parsed `data` object (read on success), `data["error"]["msg"]` (read on a
non-200 status) and the raw body text (attached to content-type errors). -/
structure PlasmoResponse where
  content_type : String
  status_code : Nat
  error_msg : String
  profile : Profile
  body_text : String
  deriving DecidableEq

/-- A completed HTTP exchange with the Telegram Bot API: the status code and
the `description` field read on failure (the `result` payload is irrelevant to
the claims). -/
structure TelegramResponse where
  status_code : Nat
  description : String
  deriving DecidableEq

/-- Model of `asyncio.gather(*coros)` with the default
`return_exceptions=False`: all results are collected; if any coroutine raised,
the exception is re-raised to the awaiting caller (sequentialised here in list
order) and the other results are discarded. -/
def gatherExcept {α : Type} : List (Except ResponseError α) → Except ResponseError (List α)
  | [] => .ok []
  | .error e :: _ => .error e
  | .ok a :: rest =>
    match gatherExcept rest with
    | .error e => .error e
    | .ok as => .ok (a :: as)

/-- Model of `Announcer.query_plasmo` (lines 89-117): raise
`BAD_CONTENT_TYPE` on a non-JSON content type, `BAD_STATUS_CODE` on a non-200
status, otherwise return the `data` object. -/
def query_plasmo (r : PlasmoResponse) : Except ResponseError Profile :=
  if r.content_type ≠ "application/json" then
    .error ⟨"Plasmo API returned unsupported type of " ++ r.content_type,
      "BAD_CONTENT_TYPE", r.body_text⟩
  else if r.status_code ≠ 200 then
    .error ⟨"Plasmo API returned a status code of " ++ toString r.status_code,
      "BAD_STATUS_CODE", r.error_msg⟩
  else
    .ok r.profile

/-- Model of `Announcer.query_telegram` (lines 119-139): raise
`BAD_STATUS_CODE` on a non-200 status, otherwise succeed (the `result` payload
is not needed by the claims). -/
def query_telegram (r : TelegramResponse) : Except ResponseError Unit :=
  if r.status_code ≠ 200 then
    .error ⟨"Telegram API returned a status code of " ++ toString r.status_code,
      "BAD_STATUS_CODE", r.description⟩
  else
    .ok ()

/-- The `shortened_data` dictionary built by `assert_player` when called with
a player id (as `execute` does): the id is known, the nickname and server are
resolved from the response when available. -/
structure AssertDataId where
  id : Nat
  nick : Option String
  server : Option String
  deriving DecidableEq

/-- The `shortened_data` dictionary built by `assert_player` when called with
a nickname string (as `handle_input` does): the nickname is known, the id and
server are resolved from the response when available. -/
structure AssertDataNick where
  nick : String
  id : Option Nat
  server : Option String
  deriving DecidableEq

/-- Model of `Announcer.assert_player` (lines 141-170) instantiated at an
integer argument (`known_param = "id"`), as used by `execute`.  A
`ResponseError` whose reference is not `BAD_CONTENT_TYPE` is swallowed and the
player reported unsuitable; a `BAD_CONTENT_TYPE` error is re-raised.  On a
successful query the player is unsuitable when `has_access`/`banned` are
missing, access is revoked or the player is banned; otherwise the player is
suitable and the server is filled in from `data["stats"]["on_server"]`. -/
def assert_player_id (pid : Nat) (r : PlasmoResponse) :
    Except ResponseError (Bool × AssertDataId) :=
  match query_plasmo r with
  | .error e =>
    if e.reference ≠ "BAD_CONTENT_TYPE" then .ok (false, ⟨pid, none, none⟩)
    else .error e
  | .ok data =>
    let d : AssertDataId := ⟨pid, some data.nick, none⟩
    if data.has_access = none ∨ data.banned = none then .ok (false, d)
    else if data.has_access = some false ∨ data.banned = some true then .ok (false, d)
    else .ok (true, { d with server := data.on_server })

/-- Model of `Announcer.assert_player` instantiated at a string argument
(`known_param = "nick"`), as used by `handle_input`. -/
def assert_player_nick (value : String) (r : PlasmoResponse) :
    Except ResponseError (Bool × AssertDataNick) :=
  match query_plasmo r with
  | .error e =>
    if e.reference ≠ "BAD_CONTENT_TYPE" then .ok (false, ⟨value, none, none⟩)
    else .error e
  | .ok data =>
    let d : AssertDataNick := ⟨value, some data.id, none⟩
    if data.has_access = none ∨ data.banned = none then .ok (false, d)
    else if data.has_access = some false ∨ data.banned = some true then .ok (false, d)
    else .ok (true, { d with server := data.on_server })

/-- The value `assert_player` returns on the non-raising paths; on the raising
path (a `BAD_CONTENT_TYPE` error) the value is the untouched `shortened_data`.
Used to state batch-level theorems; `assert_player_id_ok_of_json` proves that
on a well-typed response `assert_player_id` returns exactly this value. -/
def assert_outcome (pid : Nat) (r : PlasmoResponse) : Bool × AssertDataId :=
  match assert_player_id pid r with
  | .ok v => v
  | .error _ => (false, ⟨pid, none, none⟩)

/-- The mutable state of the `Announcer` instance shared by the two loops: the
persisted set of targeted player ids and the transient set of online
nicknames.  (Write-through persistence in `save_changes` has no observable
effect on the in-memory state and is not modelled.) -/
structure AnnState where
  targeted_players : List Nat
  online_players : List String
  deriving DecidableEq

/-- Model of `Announcer.add_player` (lines 69-75): `set.add`, a no-op when the
id is already present. -/
def add_player (s : AnnState) (pid : Nat) : AnnState :=
  { s with targeted_players := s.targeted_players.insert pid }

/-- Model of `Announcer.remove_player` (lines 77-87): remove the id from the
targeted set, then remove the nickname from the online set when one was
supplied, is truthy (Python `if nick`, so non-`None` and non-empty) and is
present.  (Python `set.remove` raises `KeyError` on an absent id; every call
site removes an id it has just observed in the set, so the embedding performs
a plain erase.) -/
def remove_player (s : AnnState) (pid : Nat) : Option String → AnnState
  | none => { s with targeted_players := s.targeted_players.erase pid }
  | some n =>
    let s1 : AnnState := { s with targeted_players := s.targeted_players.erase pid }
    if n ≠ "" ∧ n ∈ s1.online_players then
      { s1 with online_players := s1.online_players.erase n }
    else s1

/-- The configuration fields of the `Announcer` instance consumed by the
modelled operations: the monitored servers, the Telegram chat ids of the
owners, and the alert templates keyed by alert kind. -/
structure Settings where
  servers : List String
  owners : List Nat
  alerts : List (String × String)
  deriving DecidableEq

/-- The class constant `Announcer.SERVERS = ("sur", "cr")` (line 31). -/
def SERVERS : List String := ["sur", "cr"]

/-- Model of line 45,
`self.servers = set(s for s in servers if s in self.SERVERS) or self.SERVERS[:1]`:
keep the configured entries that are known servers (deduplicated, as a set
comprehension); when none remain, fall back to `("sur",)`. -/
def init_servers (servers : List String) : List String :=
  if (servers.filter (fun s => decide (s ∈ SERVERS))).dedup = [] then ["sur"]
  else (servers.filter (fun s => decide (s ∈ SERVERS))).dedup

/-- Model of line 48, `self.interval = max(15, interval)`. -/
def announcer_interval (interval : Int) : Int := max 15 interval

/-- Python membership test `server in self.servers` for the possibly-`None`
value `data["server"]`: `None` is a member of no set of strings. -/
def server_mem (o : Option String) (servers : List String) : Prop :=
  match o with
  | some v => v ∈ servers
  | none => False

instance (o : Option String) (servers : List String) : Decidable (server_mem o servers) :=
  match o with
  | some v => inferInstanceAs (Decidable (v ∈ servers))
  | none => inferInstanceAs (Decidable False)

/-- One logical alert: the nickname mentioned (possibly unresolved) and the
alert kind passed to `send_message`. -/
abbrev AlertEvent := Option String × String

/-- The logical notification produced by a `send_message(nick, alert_key)`
call: nothing when the alert kind has no configured template (`send_message`
returns early), otherwise the single event. -/
def notifications (cfg : Settings) (nick : Option String) (alert_key : String) :
    List AlertEvent :=
  match List.lookup alert_key cfg.alerts with
  | none => []
  | some _ => [(nick, alert_key)]

/-- The Markdown link built by `send_message` (line 181): `"N/A"` when the
nickname is falsy (Python truthiness: `None` or the empty string). -/
def player_link : Option String → String
  | none => "N/A"
  | some n => if n = "" then "N/A" else "[" ++ n ++ "](https://rp.plo.su/u/" ++ n ++ ")"

/-- Model of `Announcer.send_message` (lines 172-194).  `tg` maps a chat id
and a message text to the Telegram response for that `sendMessage` call.  When
the alert kind has no template the call returns immediately; otherwise one
request per owner is issued and joined with `asyncio.gather` (default error
propagation, `gatherExcept`). -/
def send_message (cfg : Settings) (tg : Nat → String → TelegramResponse)
    (nick : Option String) (alert_key : String) : Except ResponseError Unit :=
  match List.lookup alert_key cfg.alerts with
  | none => .ok ()
  | some template =>
    let text := template.replace "%s" (player_link nick)
    match gatherExcept (cfg.owners.map (fun owner => query_telegram (tg owner text))) with
    | .error e => .error e
    | .ok _ => .ok ()

/-- The body of the `for assertion, data in results` loop of `execute` (lines
257-276) for one assertion result: an unsuitable player is removed (with its
reported nickname) and a `"removal"` alert sent; a suitable player joins when
it is on a monitored server and was not online, and leaves when it is not on a
monitored server but was online.  The `none` nickname branch of a suitable
result is unreachable (`assert_player_id_true_nick`); Telegram delivery is
recorded as events, delivery faults being out of scope of this function. -/
def step_result (cfg : Settings) (s : AnnState) : Bool × AssertDataId →
    AnnState × List AlertEvent
  | (false, d) => (remove_player s d.id d.nick, notifications cfg d.nick "removal")
  | (true, ⟨_, none, _⟩) => (s, [])
  | (true, ⟨_, some n, server⟩) =>
    let p1 : AnnState × List AlertEvent :=
      if server_mem server cfg.servers ∧ n ∉ s.online_players then
        ({ s with online_players := n :: s.online_players },
          notifications cfg (some n) "join")
      else (s, [])
    let p2 : AnnState × List AlertEvent :=
      if ¬ server_mem server cfg.servers ∧ n ∈ p1.1.online_players then
        ({ p1.1 with online_players := p1.1.online_players.erase n },
          notifications cfg (some n) "leave")
      else (p1.1, [])
    (p2.1, p1.2 ++ p2.2)

/-- The whole result-processing loop of `execute`: the assertion results are
handled strictly in iteration order, each step observing the state mutations
of the previous ones, and the issued alerts are concatenated in that order. -/
def processResults (cfg : Settings) : List (Bool × AssertDataId) → AnnState →
    AnnState × List AlertEvent
  | [], s => (s, [])
  | r :: rest, s =>
    let p := step_result cfg s r
    let q := processResults cfg rest p.1
    (q.1, p.2 ++ q.2)

/-- Model of `Announcer.execute` (lines 248-276): assert every targeted player
concurrently, join with `asyncio.gather` (an exception escaping any assertion
is re-raised here and nothing is processed), then run the processing loop.
`plasmo` maps a player id to the `/user/profile` response for that id during
this cycle. -/
def execute (cfg : Settings) (plasmo : Nat → PlasmoResponse) (s : AnnState) :
    Except ResponseError (AnnState × List AlertEvent) :=
  match gatherExcept (s.targeted_players.map (fun p => assert_player_id p (plasmo p))) with
  | .error e => .error e
  | .ok results => .ok (processResults cfg results s)

/-- The lexical rule of `handle_input` (line 202),
`re.fullmatch(r"[a-zA-Z0-9_]{3,16}", field)`: 3 to 16 characters, each an
ASCII letter, digit or underscore. -/
def is_valid_nick (field : String) : Bool :=
  3 ≤ field.length && field.length ≤ 16 &&
    field.toList.all (fun c => c.isAlphanum || c == '_')

/-- Model of `Announcer.handle_input` (lines 196-218): silently ignore input
that does not match the nickname rule or whose owner is unsuitable; otherwise
toggle the resolved id, sending an `"addition"` or `"removal"` alert.  The
`none` id branch of a suitable assertion is unreachable
(`assert_player_nick_true_id`). -/
def handle_input (cfg : Settings) (plasmoN : String → PlasmoResponse)
    (field : String) (s : AnnState) : Except ResponseError (AnnState × List AlertEvent) :=
  if is_valid_nick field then
    match assert_player_nick field (plasmoN field) with
    | .error e => .error e
    | .ok (false, _) => .ok (s, [])
    | .ok (true, d) =>
      match d.id with
      | none => .ok (s, [])
      | some pid =>
        if pid ∉ s.targeted_players then
          .ok (add_player s pid, notifications cfg (some d.nick) "addition")
        else
          .ok (remove_player s pid (some d.nick), notifications cfg (some d.nick) "removal")
  else .ok (s, [])

/-- Model of `Announcer.start_listener` (lines 278-285): a fuel-style run of
the `while self.state` loop against a stream of `get_updates` outcomes,
returning the final value of the shared `state` flag together with the number
of loop iterations that were started.  An escaping `ResponseError` is caught
by the handler, which sets `state` to `False` and lets the loop terminate. -/
def start_listener : List (Except ResponseError Unit) → Bool → Bool × Nat
  | _, false => (false, 0)
  | [], st => (st, 0)
  | .ok _ :: rest, true =>
    let p := start_listener rest true
    (p.1, p.2 + 1)
  | .error _ :: _, true => (false, 1)

/-- Model of `Announcer.start_looper` (lines 287-295): identical loop shape to
`start_listener`, each iteration being one `execute` cycle followed by the
sleep. -/
def start_looper : List (Except ResponseError Unit) → Bool → Bool × Nat
  | _, false => (false, 0)
  | [], st => (st, 0)
  | .ok _ :: rest, true =>
    let p := start_looper rest true
    (p.1, p.2 + 1)
  | .error _ :: _, true => (false, 1)

/-! Concrete fixtures used by the counterexamples and witnesses below. -/

/-- Settings fixture used by concrete counterexamples and witnesses: one
monitored server, two owners, all four alert kinds configured. -/
def demo_settings : Settings :=
  ⟨["sur"], [10, 20],
    [("join", "%s is online"), ("leave", "%s is offline"),
      ("removal", "%s got removed"), ("addition", "%s is now tracked")]⟩

/-- A well-typed, successful profile response with the given payload. -/
def json_ok (p : Profile) : PlasmoResponse := ⟨"application/json", 200, "", p, ""⟩

/-- A well-typed response with a non-200 status code. -/
def bad_status_resp : PlasmoResponse :=
  ⟨"application/json", 500, "Internal error", ⟨0, "", none, none, none⟩, ""⟩

/-- A response with a non-JSON content type. -/
def bad_type_resp : PlasmoResponse :=
  ⟨"text/html", 200, "", ⟨0, "", none, none, none⟩, "<html>"⟩

/-- A Telegram backend for which the first owner's send fails and the second
owner's send succeeds. -/
def c1_tg : Nat → String → TelegramResponse := fun owner _ =>
  if owner = 10 then ⟨500, "client error"⟩ else ⟨200, ""⟩

/-- A remote state in which player 1's profile lookup violates the content
type contract while player 2 is merely banned. -/
def c2_plasmo : Nat → PlasmoResponse := fun p =>
  if p = 1 then ⟨"text/html", 200, "", ⟨1, "alice", some true, some false, none⟩, "<html>"⟩
  else json_ok ⟨2, "bob", some true, some true, none⟩

/-- A remote state in which player 1 is suitable and on the monitored server
while player 2 is banned. -/
def c4_plasmo : Nat → PlasmoResponse := fun p =>
  if p = 1 then json_ok ⟨1, "alice", some true, some false, some "sur"⟩
  else json_ok ⟨2, "bob", some true, some true, none⟩

/-- The remote state used by the C6 witness: the nickname `"carol"` resolves
to the suitable player 7, on no monitored server. -/
def c6_plasmo : String → PlasmoResponse :=
  fun _ => json_ok ⟨7, "carol", some true, some false, none⟩

/-- A remote state in which every profile lookup fails with a non-200 status,
so removals cannot resolve the player's nickname. -/
def c3_plasmo : Nat → PlasmoResponse := fun _ => bad_status_resp

/-- The remote state used by the C3 witness: player 7 is suitable, nicknamed
`"carol"`, on the monitored server. -/
def c3w_plasmo : Nat → PlasmoResponse :=
  fun _ => json_ok ⟨7, "carol", some true, some false, some "sur"⟩

/-- A remote state in which two distinct tracked players report the same
nickname, one on the monitored server and one on no server. -/
def c5_plasmo : Nat → PlasmoResponse := fun p =>
  if p = 1 then json_ok ⟨1, "nick_a", some true, some false, some "sur"⟩
  else json_ok ⟨2, "nick_a", some true, some false, none⟩

/-- The remote state used by the C5 witness: the single tracked player 1 is
suitable, nicknamed `"dave"`, on the monitored server. -/
def c5w_plasmo : Nat → PlasmoResponse :=
  fun _ => json_ok ⟨1, "dave", some true, some false, some "sur"⟩

/-! Helper lemmas about the embedded operations. -/

theorem assert_outcome_of_ok {pid : Nat} {r : PlasmoResponse} {v : Bool × AssertDataId}
    (h : assert_player_id pid r = .ok v) : assert_outcome pid r = v := by
  unfold assert_outcome
  rw [h]

theorem assert_player_id_ok_of_json (pid : Nat) (r : PlasmoResponse)
    (h : r.content_type = "application/json") :
    assert_player_id pid r = .ok (assert_outcome pid r) := by
  by_cases hs : r.status_code = 200
  · cases hacc : r.profile.has_access with
    | none => simp [assert_player_id, query_plasmo, assert_outcome, h, hs, hacc]
    | some a =>
      cases hban : r.profile.banned with
      | none => simp [assert_player_id, query_plasmo, assert_outcome, h, hs, hacc, hban]
      | some b =>
        cases a <;> cases b <;>
          simp [assert_player_id, query_plasmo, assert_outcome, h, hs, hacc, hban]
  · simp [assert_player_id, query_plasmo, assert_outcome, h, hs]

theorem assert_outcome_id (pid : Nat) (r : PlasmoResponse) :
    (assert_outcome pid r).2.id = pid := by
  by_cases hc : r.content_type = "application/json"
  · by_cases hs : r.status_code = 200
    · cases hacc : r.profile.has_access with
      | none => simp [assert_outcome, assert_player_id, query_plasmo, hc, hs, hacc]
      | some a =>
        cases hban : r.profile.banned with
        | none => simp [assert_outcome, assert_player_id, query_plasmo, hc, hs, hacc, hban]
        | some b =>
          cases a <;> cases b <;>
            simp [assert_outcome, assert_player_id, query_plasmo, hc, hs, hacc, hban]
    · simp [assert_outcome, assert_player_id, query_plasmo, hc, hs]
  · simp [assert_outcome, assert_player_id, query_plasmo, hc]

theorem assert_player_id_true_nick {pid : Nat} {r : PlasmoResponse} {d : AssertDataId}
    (h : assert_player_id pid r = .ok (true, d)) : d.nick = some r.profile.nick := by
  by_cases hc : r.content_type = "application/json"
  · by_cases hs : r.status_code = 200
    · cases hacc : r.profile.has_access with
      | none => simp [assert_player_id, query_plasmo, hc, hs, hacc] at h
      | some a =>
        cases hban : r.profile.banned with
        | none => simp [assert_player_id, query_plasmo, hc, hs, hacc, hban] at h
        | some b =>
          cases a <;> cases b <;>
            simp [assert_player_id, query_plasmo, hc, hs, hacc, hban] at h <;>
            simp [← h]
    · simp [assert_player_id, query_plasmo, hc, hs] at h
  · simp [assert_player_id, query_plasmo, hc] at h

theorem assert_player_nick_true_id {v : String} {r : PlasmoResponse} {d : AssertDataNick}
    (h : assert_player_nick v r = .ok (true, d)) :
    d.id = some r.profile.id ∧ d.nick = v := by
  by_cases hc : r.content_type = "application/json"
  · by_cases hs : r.status_code = 200
    · cases hacc : r.profile.has_access with
      | none => simp [assert_player_nick, query_plasmo, hc, hs, hacc] at h
      | some a =>
        cases hban : r.profile.banned with
        | none => simp [assert_player_nick, query_plasmo, hc, hs, hacc, hban] at h
        | some b =>
          cases a <;> cases b <;>
            simp [assert_player_nick, query_plasmo, hc, hs, hacc, hban] at h <;>
            simp [← h]
    · simp [assert_player_nick, query_plasmo, hc, hs] at h
  · simp [assert_player_nick, query_plasmo, hc] at h

theorem gatherExcept_map_ok_intro {α β : Type} (l : List α)
    (f : α → Except ResponseError β) (g : α → β)
    (h : ∀ x ∈ l, f x = .ok (g x)) :
    gatherExcept (l.map f) = .ok (l.map g) := by
  induction l with
  | nil => rfl
  | cons x xs ih =>
    have hx := h x (List.mem_cons_self x xs)
    have hrest := ih (fun y hy => h y (List.mem_cons_of_mem x hy))
    simp [gatherExcept, hx, hrest]

theorem gatherExcept_map_ok_elim {α β : Type} (l : List α)
    (f : α → Except ResponseError β) (g : α → β) (rs : List β)
    (hg : ∀ x ∈ l, ∀ v, f x = .ok v → v = g x)
    (h : gatherExcept (l.map f) = .ok rs) :
    rs = l.map g ∧ ∀ x ∈ l, f x = .ok (g x) := by
  induction l generalizing rs with
  | nil =>
    simp [gatherExcept] at h
    simp [← h]
  | cons x xs ih =>
    cases hx : f x with
    | error e => simp [gatherExcept, hx] at h
    | ok v =>
      cases hrest : gatherExcept (xs.map f) with
      | error e => simp [gatherExcept, hx, hrest] at h
      | ok vs =>
        simp [gatherExcept, hx, hrest] at h
        have hv : v = g x := hg x (List.mem_cons_self x xs) v hx
        obtain ⟨hvs, hall⟩ := ih vs (fun y hy w hw => hg y (List.mem_cons_of_mem x hy) w hw) hrest
        subst hv hvs
        refine ⟨by simp [← h], fun y hy => ?_⟩
        rcases List.mem_cons.mp hy with rfl | hy'
        · exact hx
        · exact hall y hy'

theorem remove_player_targeted (s : AnnState) (pid : Nat) (nick : Option String) :
    (remove_player s pid nick).targeted_players = s.targeted_players.erase pid := by
  cases nick with
  | none => rfl
  | some n =>
    simp only [remove_player]
    split_ifs <;> rfl

theorem remove_player_online_of_ne (s : AnnState) (pid : Nat) (nick : Option String)
    (n : String) (h : nick ≠ some n) :
    (n ∈ (remove_player s pid nick).online_players ↔ n ∈ s.online_players) := by
  cases nick with
  | none => rfl
  | some m =>
    have hnm : n ≠ m := fun hc => h (by simp [hc])
    simp only [remove_player]
    split_ifs <;> simp [List.mem_erase_of_ne hnm]

theorem step_result_true_targeted (cfg : Settings) (s : AnnState) (d : AssertDataId) :
    (step_result cfg s (true, d)).1.targeted_players = s.targeted_players := by
  obtain ⟨pid, nick, srv⟩ := d
  cases nick with
  | none => rfl
  | some n =>
    simp only [step_result]
    split_ifs <;> rfl

theorem step_result_false (cfg : Settings) (s : AnnState) (d : AssertDataId) :
    step_result cfg s (false, d) =
      (remove_player s d.id d.nick, notifications cfg d.nick "removal") := rfl

theorem step_result_online_of_ne (cfg : Settings) (s : AnnState) (r : Bool × AssertDataId)
    (n : String) (h : r.2.nick ≠ some n) :
    (n ∈ (step_result cfg s r).1.online_players ↔ n ∈ s.online_players) := by
  obtain ⟨flag, d⟩ := r
  cases flag with
  | false => simpa [step_result_false] using remove_player_online_of_ne s d.id d.nick n h
  | true =>
    obtain ⟨pid, nick, srv⟩ := d
    cases nick with
    | none => rfl
    | some m =>
      have hnm : n ≠ m := fun hc => h (by simp_all)
      simp only [step_result]
      split_ifs <;> simp [List.mem_erase_of_ne hnm, hnm]

theorem step_result_nodup_online (cfg : Settings) (s : AnnState) (r : Bool × AssertDataId)
    (h : s.online_players.Nodup) : (step_result cfg s r).1.online_players.Nodup := by
  obtain ⟨flag, d⟩ := r
  cases flag with
  | false =>
    rw [step_result_false]
    cases hd : d.nick with
    | none => exact h
    | some m =>
      simp only [remove_player]
      split_ifs
      · exact h.erase m
      · exact h
  | true =>
    obtain ⟨pid, nick, srv⟩ := d
    cases nick with
    | none => exact h
    | some m =>
      simp only [step_result]
      split_ifs with h1 h2 h2
      · exact (List.nodup_cons.mpr ⟨h1.2, h⟩).erase m
      · exact List.nodup_cons.mpr ⟨h1.2, h⟩
      · exact h.erase m
      · exact h

theorem step_result_nodup_targeted (cfg : Settings) (s : AnnState) (r : Bool × AssertDataId)
    (h : s.targeted_players.Nodup) : (step_result cfg s r).1.targeted_players.Nodup := by
  obtain ⟨flag, d⟩ := r
  cases flag with
  | false =>
    rw [step_result_false, remove_player_targeted]
    exact h.erase d.id
  | true => rw [step_result_true_targeted]; exact h

theorem processResults_online_of_ne (cfg : Settings) (n : String) :
    ∀ (rs : List (Bool × AssertDataId)) (s : AnnState),
    (∀ r ∈ rs, r.2.nick ≠ some n) →
    (n ∈ (processResults cfg rs s).1.online_players ↔ n ∈ s.online_players) := by
  intro rs
  induction rs with
  | nil => intro s _; rfl
  | cons r rest ih =>
    intro s h
    have hstep := step_result_online_of_ne cfg s r n (h r (List.mem_cons_self r rest))
    have hrest := ih (step_result cfg s r).1 (fun r' hr' => h r' (List.mem_cons_of_mem r hr'))
    simp only [processResults]
    exact hrest.trans hstep

theorem processResults_nodup_online (cfg : Settings) :
    ∀ (rs : List (Bool × AssertDataId)) (s : AnnState),
    s.online_players.Nodup → (processResults cfg rs s).1.online_players.Nodup := by
  intro rs
  induction rs with
  | nil => intro s h; exact h
  | cons r rest ih =>
    intro s h
    simp only [processResults]
    exact ih _ (step_result_nodup_online cfg s r h)

theorem processResults_nodup_targeted (cfg : Settings) :
    ∀ (rs : List (Bool × AssertDataId)) (s : AnnState),
    s.targeted_players.Nodup → (processResults cfg rs s).1.targeted_players.Nodup := by
  intro rs
  induction rs with
  | nil => intro s h; exact h
  | cons r rest ih =>
    intro s h
    simp only [processResults]
    exact ih _ (step_result_nodup_targeted cfg s r h)

theorem processResults_mem_targeted_iff (cfg : Settings) :
    ∀ (rs : List (Bool × AssertDataId)) (s : AnnState), s.targeted_players.Nodup →
    ∀ p : Nat,
    (p ∈ (processResults cfg rs s).1.targeted_players ↔
      p ∈ s.targeted_players ∧ ∀ r ∈ rs, r.1 = false → r.2.id ≠ p) := by
  intro rs
  induction rs with
  | nil => intro s _ p; simp [processResults]
  | cons r rest ih =>
    intro s hT p
    obtain ⟨flag, d⟩ := r
    simp only [processResults]
    cases flag with
    | true =>
      have := ih (step_result cfg s (true, d)).1 (step_result_nodup_targeted cfg s _ hT) p
      rw [this, step_result_true_targeted]
      simp
    | false =>
      have := ih (step_result cfg s (false, d)).1 (step_result_nodup_targeted cfg s _ hT) p
      rw [this, step_result_false]
      simp only [remove_player_targeted]
      rw [hT.mem_erase_iff]
      constructor
      · rintro ⟨⟨hne, hmem⟩, hrest⟩
        refine ⟨hmem, ?_⟩
        intro r' hr' hfl
        rcases List.mem_cons.mp hr' with rfl | h'
        · simpa [ne_comm] using hne
        · exact hrest r' h' hfl
      · rintro ⟨hmem, hall⟩
        refine ⟨⟨?_, hmem⟩, fun r' hr' hfl => hall r' (List.mem_cons_of_mem _ hr') hfl⟩
        have := hall (false, d) (List.mem_cons_self _ _) rfl
        simpa [ne_comm] using this

theorem processResults_append (cfg : Settings) :
    ∀ (rs1 rs2 : List (Bool × AssertDataId)) (s : AnnState),
    processResults cfg (rs1 ++ rs2) s =
      ((processResults cfg rs2 (processResults cfg rs1 s).1).1,
        (processResults cfg rs1 s).2 ++ (processResults cfg rs2 (processResults cfg rs1 s).1).2) := by
  intro rs1
  induction rs1 with
  | nil => intro rs2 s; simp [processResults]
  | cons r rest ih =>
    intro rs2 s
    simp only [List.cons_append, processResults, List.append_eq]
    rw [ih]
    simp [List.append_assoc]

theorem step_result_online_self (cfg : Settings) (s : AnnState) (pid : Nat) (n : String)
    (srv : Option String) (hO : s.online_players.Nodup) :
    (n ∈ (step_result cfg s (true, ⟨pid, some n, srv⟩)).1.online_players ↔
      server_mem srv cfg.servers) := by
  by_cases hsm : server_mem srv cfg.servers <;> by_cases hm : n ∈ s.online_players
  · simp [step_result, hsm, hm]
  · simp [step_result, hsm, hm]
  · simp [step_result, hsm, hm, hO.mem_erase_iff]
  · simp [step_result, hsm, hm]

theorem processResults_online_iff (cfg : Settings) :
    ∀ (rs : List (Bool × AssertDataId)) (s : AnnState), s.online_players.Nodup →
    rs.Pairwise (fun a b => ∀ m, a.2.nick = some m → b.2.nick ≠ some m) →
    ∀ (d : AssertDataId) (n : String), (true, d) ∈ rs → d.nick = some n →
    (n ∈ (processResults cfg rs s).1.online_players ↔ server_mem d.server cfg.servers) := by
  intro rs
  induction rs with
  | nil => intro s _ _ d n hmem; exact absurd hmem (List.not_mem_nil _)
  | cons r rest ih =>
    intro s hO hP d n hmem hnick
    obtain ⟨hhead, htail⟩ := List.pairwise_cons.mp hP
    simp only [processResults]
    rcases List.mem_cons.mp hmem with heq | hmem'
    · have hne : ∀ r' ∈ rest, r'.2.nick ≠ some n := by
        intro r' hr'
        exact hhead r' hr' n (by rw [← heq]; exact hnick)
      rw [processResults_online_of_ne cfg n rest _ hne]
      obtain ⟨pid, nick, srv⟩ := d
      obtain rfl : nick = some n := hnick
      rw [← heq]
      exact step_result_online_self cfg s pid n srv hO
    · exact ih (step_result cfg s r).1 (step_result_nodup_online cfg s r hO) htail d n
        hmem' hnick

theorem step_result_noop (cfg : Settings) (s : AnnState) (pid : Nat) (n : String)
    (srv : Option String) (h : server_mem srv cfg.servers ↔ n ∈ s.online_players) :
    step_result cfg s (true, ⟨pid, some n, srv⟩) = (s, []) := by
  by_cases hsm : server_mem srv cfg.servers
  · have hm : n ∈ s.online_players := h.mp hsm
    simp [step_result, hsm, hm]
  · have hm : n ∉ s.online_players := fun hc => hsm (h.mpr hc)
    simp [step_result, hsm, hm]

theorem processResults_noop (cfg : Settings) :
    ∀ (rs : List (Bool × AssertDataId)) (s : AnnState),
    (∀ r ∈ rs, r.1 = true ∧ ∃ n, r.2.nick = some n ∧
      (server_mem r.2.server cfg.servers ↔ n ∈ s.online_players)) →
    processResults cfg rs s = (s, []) := by
  intro rs
  induction rs with
  | nil => intro s _; rfl
  | cons r rest ih =>
    intro s h
    obtain ⟨hflag, n, hnick, hiff⟩ := h r (List.mem_cons_self r rest)
    obtain ⟨flag, pid, nick, srv⟩ := r
    simp only at hflag hnick
    subst hflag
    subst hnick
    have hstep := step_result_noop cfg s pid n srv hiff
    have hrest := ih s (fun r' hr' => h r' (List.mem_cons_of_mem _ hr'))
    simp [processResults, hstep, hrest]

theorem remove_player_not_mem_online (s : AnnState) (pid : Nat) (n : String)
    (hO : s.online_players.Nodup) (hne : n ≠ "") (hmem : n ∈ s.online_players) :
    n ∉ (remove_player s pid (some n)).online_players := by
  simp only [remove_player]
  rw [if_pos ⟨hne, hmem⟩]
  simpa using fun hc => (hO.mem_erase_iff.mp hc).1 rfl

theorem remove_player_online_subset (s : AnnState) (pid : Nat) (nick : Option String) :
    (remove_player s pid nick).online_players ⊆ s.online_players := by
  cases nick with
  | none => exact fun a ha => ha
  | some n =>
    simp only [remove_player]
    split_ifs
    · exact fun a ha => List.erase_subset _ _ ha
    · exact fun a ha => ha

theorem processResults_corresponds (cfg : Settings) (plasmo : Nat → PlasmoResponse) :
    ∀ (rs : List (Bool × AssertDataId)) (s : AnnState),
    s.targeted_players.Nodup → s.online_players.Nodup →
    (rs.map (fun r => r.2.id)).Nodup →
    (∀ r ∈ rs, r.2.id ∈ s.targeted_players) →
    (∀ r ∈ rs, assert_player_id r.2.id (plasmo r.2.id) = .ok r) →
    (∀ n ∈ s.online_players,
      (∃ r ∈ rs, r.2.nick = some n ∧ n ≠ "") ∨
      (∃ p ∈ s.targeted_players, (∀ r ∈ rs, r.2.id ≠ p) ∧
        ∃ d, assert_player_id p (plasmo p) = .ok (true, d) ∧ d.nick = some n)) →
    ∀ n ∈ (processResults cfg rs s).1.online_players,
      ∃ p ∈ (processResults cfg rs s).1.targeted_players,
        ∃ d, assert_player_id p (plasmo p) = .ok (true, d) ∧ d.nick = some n := by
  intro rs
  induction rs with
  | nil =>
    intro s _ _ _ _ _ hinv n hn
    rcases hinv n hn with ⟨r, hr, _⟩ | ⟨p, hp, _, hgood⟩
    · exact absurd hr (List.not_mem_nil r)
    · exact ⟨p, hp, hgood⟩
  | cons r rest ih =>
    intro s hT hO hids hsub hrs hinv
    obtain ⟨hidh, hidt⟩ : r.2.id ∉ rest.map (fun r' => r'.2.id) ∧
        (rest.map (fun r' => r'.2.id)).Nodup := by
      simpa using List.nodup_cons.mp hids
    have hT1 := step_result_nodup_targeted cfg s r hT
    have hO1 := step_result_nodup_online cfg s r hO
    have hrs1 : ∀ r' ∈ rest, assert_player_id r'.2.id (plasmo r'.2.id) = .ok r' :=
      fun r' hr' => hrs r' (List.mem_cons_of_mem r hr')
    obtain ⟨flag, d⟩ := r
    simp only [processResults]
    cases flag with
    | false =>
      have htar : (step_result cfg s (false, d)).1.targeted_players =
          s.targeted_players.erase d.id := by
        rw [step_result_false, remove_player_targeted]
      have hsub1 : ∀ r' ∈ rest,
          r'.2.id ∈ (step_result cfg s (false, d)).1.targeted_players := by
        intro r' hr'
        rw [htar, hT.mem_erase_iff]
        refine ⟨?_, hsub r' (List.mem_cons_of_mem _ hr')⟩
        intro hc
        exact hidh (hc ▸ List.mem_map_of_mem (fun r'' => r''.2.id) hr')
      have hinv1 : ∀ n ∈ (step_result cfg s (false, d)).1.online_players,
          (∃ r' ∈ rest, r'.2.nick = some n ∧ n ≠ "") ∨
          (∃ p ∈ (step_result cfg s (false, d)).1.targeted_players,
            (∀ r' ∈ rest, r'.2.id ≠ p) ∧
            ∃ dd, assert_player_id p (plasmo p) = .ok (true, dd) ∧ dd.nick = some n) := by
        intro n hn
        have hnmem : n ∈ s.online_players := by
          rw [step_result_false] at hn
          exact remove_player_online_subset s d.id d.nick hn
        rcases hinv n hnmem with ⟨r', hr', hnick', hne'⟩ | ⟨p, hp, hnid, hgood⟩
        · rcases List.mem_cons.mp hr' with rfl | htl
          · exfalso
            have hnick2 : d.nick = some n := by simpa using hnick'
            rw [step_result_false, hnick2] at hn
            exact remove_player_not_mem_online s d.id n hO hne' hnmem hn
          · exact Or.inl ⟨r', htl, hnick', hne'⟩
        · refine Or.inr ⟨p, ?_, fun r' hr' => hnid r' (List.mem_cons_of_mem _ hr'), hgood⟩
          rw [htar, hT.mem_erase_iff]
          exact ⟨fun hc => hnid (false, d) (List.mem_cons_self _ _) hc.symm, hp⟩
      exact ih (step_result cfg s (false, d)).1 hT1 hO1 hidt hsub1 hrs1 hinv1
    | true =>
      have hd := hrs (true, d) (List.mem_cons_self _ _)
      have hm : d.nick = some (plasmo d.id).profile.nick := assert_player_id_true_nick hd
      have htar := step_result_true_targeted cfg s d
      have hsub1 : ∀ r' ∈ rest,
          r'.2.id ∈ (step_result cfg s (true, d)).1.targeted_players := by
        intro r' hr'
        rw [htar]
        exact hsub r' (List.mem_cons_of_mem _ hr')
      have hinv1 : ∀ n ∈ (step_result cfg s (true, d)).1.online_players,
          (∃ r' ∈ rest, r'.2.nick = some n ∧ n ≠ "") ∨
          (∃ p ∈ (step_result cfg s (true, d)).1.targeted_players,
            (∀ r' ∈ rest, r'.2.id ≠ p) ∧
            ∃ dd, assert_player_id p (plasmo p) = .ok (true, dd) ∧ dd.nick = some n) := by
        intro n hn
        by_cases hnm : d.nick = some n
        · refine Or.inr ⟨d.id, ?_, ?_, d, hd, hnm⟩
          · rw [htar]
            exact hsub (true, d) (List.mem_cons_self _ _)
          · intro r' hr' hc
            exact hidh (hc ▸ List.mem_map_of_mem (fun r'' => r''.2.id) hr')
        · have hnmem : n ∈ s.online_players := by
            rw [← step_result_online_of_ne cfg s (true, d) n hnm]
            exact hn
          rcases hinv n hnmem with ⟨r', hr', hnick', hne'⟩ | ⟨p, hp, hnid, hgood⟩
          · rcases List.mem_cons.mp hr' with rfl | htl
            · exact absurd hnick' hnm
            · exact Or.inl ⟨r', htl, hnick', hne'⟩
          · refine Or.inr ⟨p, ?_, fun r' hr' => hnid r' (List.mem_cons_of_mem _ hr'), hgood⟩
            rw [htar]
            exact hp
      exact ih (step_result cfg s (true, d)).1 hT1 hO1 hidt hsub1 hrs1 hinv1

/-- C7: `assert_player` re-raises a `BAD_CONTENT_TYPE` fault of the profile
lookup as a classified error, while every other classified fault (the non-200
`BAD_STATUS_CODE` case) makes it return unsuitable instead of raising, as does
a response missing `has_access` or `banned`, or with access revoked or the
player banned — for both the by-id and the by-nick instantiation. -/
theorem c7_assert_player_fault_classification (pid : Nat) (v : String) (r : PlasmoResponse) :
    (r.content_type ≠ "application/json" →
      (∃ e, assert_player_id pid r = .error e ∧ e.reference = "BAD_CONTENT_TYPE") ∧
      (∃ e, assert_player_nick v r = .error e ∧ e.reference = "BAD_CONTENT_TYPE")) ∧
    (r.content_type = "application/json" → r.status_code ≠ 200 →
      assert_player_id pid r = .ok (false, ⟨pid, none, none⟩) ∧
      assert_player_nick v r = .ok (false, ⟨v, none, none⟩)) ∧
    (r.content_type = "application/json" → r.status_code = 200 →
      (r.profile.has_access = none ∨ r.profile.banned = none ∨
        r.profile.has_access = some false ∨ r.profile.banned = some true) →
      assert_player_id pid r = .ok (false, ⟨pid, some r.profile.nick, none⟩) ∧
      assert_player_nick v r = .ok (false, ⟨v, some r.profile.id, none⟩)) := by
  refine ⟨fun hct => ?_, fun hct hsc => ?_, fun hct hsc hflags => ?_⟩
  · constructor
    · refine ⟨⟨"Plasmo API returned unsupported type of " ++ r.content_type,
        "BAD_CONTENT_TYPE", r.body_text⟩, ?_, rfl⟩
      simp [assert_player_id, query_plasmo, hct]
    · refine ⟨⟨"Plasmo API returned unsupported type of " ++ r.content_type,
        "BAD_CONTENT_TYPE", r.body_text⟩, ?_, rfl⟩
      simp [assert_player_nick, query_plasmo, hct]
  · constructor
    · simp [assert_player_id, query_plasmo, hct, hsc]
    · simp [assert_player_nick, query_plasmo, hct, hsc]
  · rcases hflags with hacc | hban | hacc | hban
    · constructor
      · simp [assert_player_id, query_plasmo, hct, hsc, hacc]
      · simp [assert_player_nick, query_plasmo, hct, hsc, hacc]
    · constructor
      · simp [assert_player_id, query_plasmo, hct, hsc, hban]
      · simp [assert_player_nick, query_plasmo, hct, hsc, hban]
    · cases hban : r.profile.banned with
      | none =>
        constructor
        · simp [assert_player_id, query_plasmo, hct, hsc, hban]
        · simp [assert_player_nick, query_plasmo, hct, hsc, hban]
      | some b =>
        constructor
        · simp [assert_player_id, query_plasmo, hct, hsc, hacc, hban]
        · simp [assert_player_nick, query_plasmo, hct, hsc, hacc, hban]
    · cases hacc : r.profile.has_access with
      | none =>
        constructor
        · simp [assert_player_id, query_plasmo, hct, hsc, hacc]
        · simp [assert_player_nick, query_plasmo, hct, hsc, hacc]
      | some a =>
        constructor
        · simp [assert_player_id, query_plasmo, hct, hsc, hacc, hban]
        · simp [assert_player_nick, query_plasmo, hct, hsc, hacc, hban]

/-- Witness for C7 at concrete responses: a content-type fault is re-raised, a
status fault and a banned profile are reported unsuitable. -/
theorem c7_assert_player_fault_classification_witness :
    (∃ e, assert_player_id 7 bad_type_resp = .error e ∧ e.reference = "BAD_CONTENT_TYPE") ∧
    assert_player_id 7 bad_status_resp = .ok (false, ⟨7, none, none⟩) ∧
    assert_player_nick "al_3" (json_ok ⟨3, "al_3", some true, some true, none⟩) =
      .ok (false, ⟨"al_3", some 3, none⟩) :=
  ⟨((c7_assert_player_fault_classification 7 "x" bad_type_resp).1 (by decide)).1,
    ((c7_assert_player_fault_classification 7 "x" bad_status_resp).2.1 rfl (by decide)).1,
    ((c7_assert_player_fault_classification 3 "al_3"
      (json_ok ⟨3, "al_3", some true, some true, none⟩)).2.2 rfl rfl
      (Or.inr (Or.inr (Or.inr rfl)))).2⟩

/-- C8: the configured reconciliation interval is clamped to a floor of 15
seconds — `self.interval = max(15, interval)` equals 15 for any smaller value
and the configured value otherwise. -/
theorem c8_interval_floor (i : Int) :
    announcer_interval i = max 15 i ∧ (i < 15 → announcer_interval i = 15) ∧
      (15 ≤ i → announcer_interval i = i) := by
  refine ⟨rfl, fun h => ?_, fun h => ?_⟩
  · simpa [announcer_interval] using max_eq_left h.le
  · simpa [announcer_interval] using max_eq_right h

/-- Witness for C8: a configured interval of 3 is clamped to 15, one of 40 is
used as-is. -/
theorem c8_interval_floor_witness :
    announcer_interval 3 = 15 ∧ announcer_interval 40 = 40 :=
  ⟨(c8_interval_floor 3).2.1 (by decide), (c8_interval_floor 40).2.2 (by decide)⟩

/-- C9: both long-running loops are driven by the shared `state` flag: an
escaping `ResponseError` in an iteration of either loop sets the flag to false
and ends that loop after that single iteration, and with the flag false
neither loop starts any iteration — so after a fatal fault in one loop both
loops stop cooperatively. -/
theorem c9_shared_state_flag (e : ResponseError)
    (rest bodies : List (Except ResponseError Unit)) :
    start_listener (.error e :: rest) true = (false, 1) ∧
    start_looper (.error e :: rest) true = (false, 1) ∧
    start_listener bodies false = (false, 0) ∧
    start_looper bodies false = (false, 0) := by
  refine ⟨rfl, rfl, ?_, ?_⟩ <;>
    cases bodies with
    | nil => rfl
    | cons b l => cases b <;> rfl

/-- C10: the monitored-server set is a nonempty subset of `SERVERS =
["sur", "cr"]`: unknown configured entries are discarded, known ones kept, and
when nothing valid remains the set defaults to `["sur"]`. -/
theorem c10_init_servers (servers : List String) :
    init_servers servers ≠ [] ∧
    (∀ s ∈ init_servers servers, s ∈ SERVERS) ∧
    ((∀ s ∈ servers, s ∉ SERVERS) → init_servers servers = ["sur"]) ∧
    (∀ s ∈ servers, s ∈ SERVERS → s ∈ init_servers servers) := by
  refine ⟨?_, ?_, ?_, ?_⟩
  · unfold init_servers
    split_ifs with hf
    · simp
    · exact hf
  · intro s hs
    unfold init_servers at hs
    split_ifs at hs with hf
    · have : s = "sur" := by simpa using hs
      simp [this, SERVERS]
    · have := List.mem_filter.mp (List.mem_dedup.mp hs)
      simpa using this.2
  · intro hall
    unfold init_servers
    have hf : (servers.filter (fun s => decide (s ∈ SERVERS))).dedup = [] := by
      have : servers.filter (fun s => decide (s ∈ SERVERS)) = [] := by
        rw [List.filter_eq_nil_iff]
        intro a ha
        simpa using hall a ha
      simp [this]
    simp [hf]
  · intro s hs hmem
    unfold init_servers
    have hin : s ∈ (servers.filter (fun x => decide (x ∈ SERVERS))).dedup :=
      List.mem_dedup.mpr (List.mem_filter.mpr ⟨hs, by simpa using hmem⟩)
    split_ifs with hf
    · rw [hf] at hin
      exact absurd hin (List.not_mem_nil s)
    · exact hin

/-- Witness for C10: an unknown-only configuration falls back to `["sur"]`;
a valid `"cr"` entry is kept. -/
theorem c10_init_servers_witness :
    init_servers ["xx"] = ["sur"] ∧ "cr" ∈ init_servers ["cr", "xx"] :=
  ⟨(c10_init_servers ["xx"]).2.2.1 (by decide),
    (c10_init_servers ["cr", "xx"]).2.2.2 "cr" (by decide) (by decide)⟩

/-- C1 counterexample: with two configured owners and the first send failing,
`send_message` does not discard the failure after logging — the
`ResponseError` of the failing recipient propagates to the caller
(`asyncio.gather` re-raises it), refuting the claim that errors are not
propagated. -/
theorem c1_counterexample :
    send_message demo_settings c1_tg (some "alice") "removal" =
      .error ⟨"Telegram API returned a status code of 500", "BAD_STATUS_CODE",
        "client error"⟩ := rfl

/-- C1 (amended): `send_message` fans one `sendMessage` request per configured
owner out and joins them with `asyncio.gather`; the batch succeeds exactly
when every recipient's request succeeds, and any recipient failure is
propagated to the caller as the raised `ResponseError` (no logging, no
retry).  A missing template still short-circuits to success. -/
theorem c1_send_message_fanout (cfg : Settings) (tg : Nat → String → TelegramResponse)
    (nick : Option String) (alert_key template : String)
    (hkey : List.lookup alert_key cfg.alerts = some template) :
    (send_message cfg tg nick alert_key = .ok () ↔
      ∀ o ∈ cfg.owners,
        query_telegram (tg o (template.replace "%s" (player_link nick))) = .ok ()) := by
  simp only [send_message, hkey]
  cases hg : gatherExcept (cfg.owners.map fun owner =>
      query_telegram (tg owner (template.replace "%s" (player_link nick)))) with
  | error e =>
    simp only
    constructor
    · intro h
      exact absurd h (by simp)
    · intro hall
      have := gatherExcept_map_ok_intro cfg.owners _ (fun _ => ()) hall
      rw [this] at hg
      exact absurd hg (by simp)
  | ok us =>
    simp only
    constructor
    · intro _ o ho
      exact (gatherExcept_map_ok_elim cfg.owners _ (fun _ => ()) us
        (fun x _ v _ => rfl) hg).2 o ho
    · intro _
      trivial

/-- Witness for C1 (amended) at a concrete all-success backend. -/
theorem c1_send_message_fanout_witness :
    send_message demo_settings (fun _ _ => (⟨200, ""⟩ : TelegramResponse))
      (some "alice") "removal" = .ok () :=
  (c1_send_message_fanout demo_settings (fun _ _ => (⟨200, ""⟩ : TelegramResponse))
    (some "alice") "removal" "%s got removed" rfl).mpr (fun _ _ => rfl)

/-- C2 counterexample: with players 1 and 2 tracked, a `BAD_CONTENT_TYPE`
fault of player 1's assertion escapes `assert_player`, is re-raised by the
`asyncio.gather` join and aborts the whole cycle: `execute` raises instead of
processing the batch, so player 2's completed (banned, removable) assertion is
discarded and no identity is processed — refuting the claim that one
identity's fault never aborts the batch. -/
theorem c2_counterexample :
    execute demo_settings c2_plasmo ⟨[1, 2], []⟩ =
      .error ⟨"Plasmo API returned unsupported type of text/html", "BAD_CONTENT_TYPE",
        "<html>"⟩ := rfl

/-- C2 (amended): per-identity faults other than `BAD_CONTENT_TYPE` are
isolated — when every tracked player's profile response is well-typed
(`application/json`), every assertion in the batch completes with a result
(possibly "unsuitable" after a `BAD_STATUS_CODE` fault) and `execute`
processes the entire batch; only a `BAD_CONTENT_TYPE` fault aborts the cycle
(see `c2_counterexample`). -/
theorem c2_execute_no_content_fault (cfg : Settings) (plasmo : Nat → PlasmoResponse)
    (s : AnnState)
    (hjson : ∀ p ∈ s.targeted_players, (plasmo p).content_type = "application/json") :
    execute cfg plasmo s =
      .ok (processResults cfg
        (s.targeted_players.map (fun p => assert_outcome p (plasmo p))) s) := by
  have hg := gatherExcept_map_ok_intro s.targeted_players
    (fun p => assert_player_id p (plasmo p)) (fun p => assert_outcome p (plasmo p))
    (fun p hp => assert_player_id_ok_of_json p (plasmo p) (hjson p hp))
  simp only [execute, hg]

/-- Witness for C2 (amended): a cycle over one tracked player with a
well-typed (banned) response processes the whole batch. -/
theorem c2_execute_no_content_fault_witness :
    execute demo_settings (fun _ => json_ok ⟨2, "bob", some true, some true, none⟩)
      ⟨[5], []⟩ =
      .ok (processResults demo_settings
        ([5].map (fun p => assert_outcome p (json_ok ⟨2, "bob", some true, some true, none⟩)))
        ⟨[5], []⟩) :=
  c2_execute_no_content_fault demo_settings
    (fun _ => json_ok ⟨2, "bob", some true, some true, none⟩) ⟨[5], []⟩ (fun _ _ => rfl)

/-- C4 counterexample: in one cycle over tracked players 1 (suitable, joins
"sur") and 2 (banned, removed), the emitted batch is
`[join alice, removal bob]` — the join notification of identity 1 precedes
the removal notification of identity 2, refuting the claim that all removal
events are processed and emitted before any join/leave event. -/
theorem c4_counterexample :
    execute demo_settings c4_plasmo ⟨[1, 2], []⟩ =
      .ok (⟨[1], ["alice"]⟩, [(some "alice", "join"), (some "bob", "removal")]) := rfl

/-- C4 (amended): within one cycle the events are emitted strictly in
iteration order of the assertion-result batch, each identity's events
(removal, or join/leave) appearing at its position in the batch: processing a
batch `rs1 ++ rs2` emits the events of `rs1` followed by the events of `rs2`
processed in the post-`rs1` state.  Removals are interleaved with join/leave
events rather than globally processed first (see `c4_counterexample`). -/
theorem c4_events_iteration_order (cfg : Settings)
    (rs1 rs2 : List (Bool × AssertDataId)) (s : AnnState) :
    processResults cfg (rs1 ++ rs2) s =
      ((processResults cfg rs2 (processResults cfg rs1 s).1).1,
        (processResults cfg rs1 s).2 ++
          (processResults cfg rs2 (processResults cfg rs1 s).1).2) :=
  processResults_append cfg rs1 rs2 s

/-- C6: command input toggles tracked membership.  For an input matching the
nickname rule whose identity resolves as suitable with id `p`: when `p` is not
tracked, `handle_input` adds it to the targeted set (leaving the online set
untouched) and issues the `"addition"` notification; when `p` is tracked, it
removes it via `remove_player` (which also drops the resolved nickname from
the online set if present) and issues the `"removal"` notification; two
successive calls on the same identity restore the tracked set's membership;
and an `"addition"`/`"removal"` notification is a single event whenever the
alert kind is configured. -/
theorem c6_handle_input_toggle (cfg : Settings) (plasmoN : String → PlasmoResponse)
    (field : String) (s : AnnState) (d : AssertDataNick) (p : Nat)
    (hmatch : is_valid_nick field = true)
    (hassert : assert_player_nick field (plasmoN field) = .ok (true, d))
    (hid : d.id = some p) :
    (p ∉ s.targeted_players →
      handle_input cfg plasmoN field s =
        .ok ({ s with targeted_players := p :: s.targeted_players },
          notifications cfg (some d.nick) "addition")) ∧
    (p ∈ s.targeted_players →
      handle_input cfg plasmoN field s =
        .ok (remove_player s p (some d.nick), notifications cfg (some d.nick) "removal")) ∧
    (∀ s1 ev1 s2 ev2,
      handle_input cfg plasmoN field s = .ok (s1, ev1) →
      handle_input cfg plasmoN field s1 = .ok (s2, ev2) →
      s.targeted_players.Nodup →
      ∀ q, q ∈ s2.targeted_players ↔ q ∈ s.targeted_players) ∧
    (∀ nk key, (List.lookup key cfg.alerts).isSome →
      notifications cfg nk key = [(nk, key)]) := by
  have key : ∀ t : AnnState, handle_input cfg plasmoN field t =
      if p ∉ t.targeted_players then
        .ok (add_player t p, notifications cfg (some d.nick) "addition")
      else .ok (remove_player t p (some d.nick), notifications cfg (some d.nick) "removal") := by
    intro t
    simp only [handle_input, hmatch, hassert, hid, if_true]
  refine ⟨fun hnot => ?_, fun hmem => ?_, fun s1 ev1 s2 ev2 h1 h2 hnd q => ?_, fun nk k hk => ?_⟩
  · rw [key, if_pos hnot]
    simp [add_player, List.insert_of_not_mem hnot]
  · rw [key, if_neg (not_not_intro hmem)]
  · by_cases hp : p ∈ s.targeted_players
    · rw [key, if_neg (not_not_intro hp)] at h1
      simp only [Except.ok.injEq, Prod.mk.injEq] at h1
      obtain ⟨h1s, -⟩ := h1
      have hs1t : s1.targeted_players = s.targeted_players.erase p := by
        rw [← h1s, remove_player_targeted]
      have hp1 : p ∉ s1.targeted_players := by
        rw [hs1t, hnd.mem_erase_iff]
        simp
      rw [key, if_pos hp1] at h2
      simp only [Except.ok.injEq, Prod.mk.injEq] at h2
      obtain ⟨h2s, -⟩ := h2
      have hp1' : p ∉ s.targeted_players.erase p := by
        rw [← hs1t]
        exact hp1
      have hs2t : s2.targeted_players = p :: s.targeted_players.erase p := by
        rw [← h2s]
        simp [add_player, hs1t, List.insert_of_not_mem hp1']
      rw [hs2t]
      by_cases hq : q = p
      · subst hq
        simp [hp]
      · simp only [List.mem_cons, hq, false_or]
        exact List.mem_erase_of_ne hq
    · rw [key, if_pos hp] at h1
      simp only [Except.ok.injEq, Prod.mk.injEq] at h1
      obtain ⟨h1s, -⟩ := h1
      have hs1t : s1.targeted_players = p :: s.targeted_players := by
        rw [← h1s]
        simp [add_player, List.insert_of_not_mem hp]
      have hp1 : p ∈ s1.targeted_players := by
        rw [hs1t]
        exact List.mem_cons_self p s.targeted_players
      rw [key, if_neg (not_not_intro hp1)] at h2
      simp only [Except.ok.injEq, Prod.mk.injEq] at h2
      obtain ⟨h2s, -⟩ := h2
      have hs2t : s2.targeted_players = s.targeted_players := by
        rw [← h2s, remove_player_targeted, hs1t, List.erase_cons_head]
      rw [hs2t]
  · obtain ⟨tpl, htpl⟩ := Option.isSome_iff_exists.mp hk
    simp [notifications, htpl]

/-- Witness for C6 at a concrete input: toggling an untracked identity adds it
and issues the addition notification. -/
theorem c6_handle_input_toggle_witness :
    handle_input demo_settings c6_plasmo "carol" ⟨[], []⟩ =
      .ok (⟨[7], []⟩, [(some "carol", "addition")]) :=
  (c6_handle_input_toggle demo_settings c6_plasmo "carol" ⟨[], []⟩
    ⟨"carol", some 7, none⟩ 7 (by decide) rfl rfl).1 (by decide)

/-- C3 counterexample: player 101 is tracked and online as `"alice"` (from a
previous cycle).  Its profile lookup now fails with `BAD_STATUS_CODE`, so the
assertion reports it unsuitable with an unresolved (`None`) nickname;
`remove_player(101, None)` drops the id from the targeted set but cannot touch
the online set, leaving the orphaned nickname `"alice"` online while the
targeted set is empty — refuting the invariant that every online nickname
corresponds to a tracked id. -/
theorem c3_counterexample :
    execute demo_settings c3_plasmo ⟨[101], ["alice"]⟩ =
      .ok (⟨[], ["alice"]⟩, [(none, "removal")]) ∧
    (AnnState.mk [] ["alice"]).targeted_players = [] ∧
    "alice" ∈ (AnnState.mk [] ["alice"]).online_players :=
  ⟨rfl, rfl, by decide⟩

/-- C3 (amended): the cross-set invariant holds provided removals can resolve
the nickname under which the player is online — if every tracked player's
profile response is well-typed and every pre-cycle online nickname is the
(nonempty) nickname reported by some tracked player's assertion, then after a
completed cycle every online nickname is the reported nickname of a suitable
id still present in the targeted set.  Moreover `remove_player` with a
supplied (truthy, present) nickname does drop it from the online set.  When a
removal's lookup faults, the nickname is `None` and the online entry is
orphaned (see `c3_counterexample`). -/
theorem c3_online_invariant (cfg : Settings) (plasmo : Nat → PlasmoResponse)
    (s s1 : AnnState) (ev : List AlertEvent)
    (hT : s.targeted_players.Nodup) (hO : s.online_players.Nodup)
    (hjson : ∀ p ∈ s.targeted_players, (plasmo p).content_type = "application/json")
    (hpre : ∀ n ∈ s.online_players, ∃ p ∈ s.targeted_players, ∃ f d,
      assert_player_id p (plasmo p) = .ok (f, d) ∧ d.nick = some n ∧ n ≠ "")
    (hex : execute cfg plasmo s = .ok (s1, ev)) :
    (∀ n ∈ s1.online_players, ∃ p ∈ s1.targeted_players, ∃ d,
      assert_player_id p (plasmo p) = .ok (true, d) ∧ d.nick = some n) ∧
    (∀ (t : AnnState) (pid : Nat) (m : String), t.online_players.Nodup →
      m ≠ "" → m ∈ t.online_players →
      m ∉ (remove_player t pid (some m)).online_players) := by
  constructor
  · have hg := gatherExcept_map_ok_intro s.targeted_players
      (fun p => assert_player_id p (plasmo p)) (fun p => assert_outcome p (plasmo p))
      (fun p hp => assert_player_id_ok_of_json p (plasmo p) (hjson p hp))
    simp only [execute, hg] at hex
    have hps : processResults cfg
        (s.targeted_players.map (fun p => assert_outcome p (plasmo p))) s = (s1, ev) := by
      simpa using hex
    have hmapid : ∀ l : List Nat,
        (l.map (fun p => (assert_outcome p (plasmo p)).2.id)) = l := by
      intro l
      induction l with
      | nil => rfl
      | cons a t iht => simp [assert_outcome_id, iht]
    have hids : ((s.targeted_players.map (fun p => assert_outcome p (plasmo p))).map
        (fun r => r.2.id)).Nodup := by
      have heq : (s.targeted_players.map (fun p => assert_outcome p (plasmo p))).map
          (fun r => r.2.id) = s.targeted_players := by
        rw [List.map_map]
        exact hmapid s.targeted_players
      rw [heq]
      exact hT
    have hsub : ∀ r ∈ s.targeted_players.map (fun p => assert_outcome p (plasmo p)),
        r.2.id ∈ s.targeted_players := by
      intro r hr
      obtain ⟨p, hp, rfl⟩ := List.mem_map.mp hr
      rw [assert_outcome_id]
      exact hp
    have hoks : ∀ r ∈ s.targeted_players.map (fun p => assert_outcome p (plasmo p)),
        assert_player_id r.2.id (plasmo r.2.id) = .ok r := by
      intro r hr
      obtain ⟨p, hp, rfl⟩ := List.mem_map.mp hr
      rw [assert_outcome_id]
      exact assert_player_id_ok_of_json p (plasmo p) (hjson p hp)
    have hinv : ∀ n ∈ s.online_players,
        (∃ r ∈ s.targeted_players.map (fun p => assert_outcome p (plasmo p)),
          r.2.nick = some n ∧ n ≠ "") ∨
        (∃ p ∈ s.targeted_players,
          (∀ r ∈ s.targeted_players.map (fun p => assert_outcome p (plasmo p)),
            r.2.id ≠ p) ∧
          ∃ d, assert_player_id p (plasmo p) = .ok (true, d) ∧ d.nick = some n) := by
      intro n hn
      obtain ⟨p, hp, f, d, hass, hnick, hne⟩ := hpre n hn
      refine Or.inl ⟨assert_outcome p (plasmo p), List.mem_map_of_mem _ hp, ?_, hne⟩
      rw [assert_outcome_of_ok hass]
      exact hnick
    have hmain := processResults_corresponds cfg plasmo
      (s.targeted_players.map (fun p => assert_outcome p (plasmo p))) s
      hT hO hids hsub hoks hinv
    rw [hps] at hmain
    exact hmain
  · intro t pid m hnd hne hmem
    exact remove_player_not_mem_online t pid m hnd hne hmem

/-- Witness for C3 (amended) at a concrete state: after a cycle over tracked
player 7 online as `"carol"`, the nickname still corresponds to a tracked,
suitable id; and removing with a supplied nickname drops it from the online
set. -/
theorem c3_online_invariant_witness :
    (∃ p ∈ (AnnState.mk [7] ["carol"]).targeted_players, ∃ d,
      assert_player_id p (c3w_plasmo p) = .ok (true, d) ∧ d.nick = some "carol") ∧
    "x" ∉ (remove_player ⟨[], ["x"]⟩ 3 (some "x")).online_players := by
  have hpre : ∀ n ∈ (AnnState.mk [7] ["carol"]).online_players,
      ∃ p ∈ (AnnState.mk [7] ["carol"]).targeted_players, ∃ f d,
        assert_player_id p (c3w_plasmo p) = .ok (f, d) ∧ d.nick = some n ∧ n ≠ "" := by
    intro n hn
    have hn' : n = "carol" := by simpa using hn
    subst hn'
    exact ⟨7, by decide, true, ⟨7, some "carol", some "sur"⟩, rfl, rfl, by decide⟩
  have h := c3_online_invariant demo_settings c3w_plasmo ⟨[7], ["carol"]⟩ ⟨[7], ["carol"]⟩
    [] (by decide) (by decide) (fun p hp => rfl) hpre rfl
  exact ⟨h.1 "carol" (by decide), h.2 ⟨[], ["x"]⟩ 3 "x" (by decide) (by decide) (by decide)⟩

/-- C5 counterexample: with players 1 and 2 both suitable and reporting the
same nickname `"nick_a"` (1 on the monitored server, 2 on none), a cycle
returns the state it started from while emitting a join and a leave — so
running `execute` twice in succession with this unchanged remote state emits
the same non-empty event batch again on the second run, refuting idempotence
as universally claimed. -/
theorem c5_counterexample :
    execute demo_settings c5_plasmo ⟨[1, 2], []⟩ =
      .ok (⟨[1, 2], []⟩, [(some "nick_a", "join"), (some "nick_a", "leave")]) ∧
    [(some "nick_a", "join"), (some "nick_a", "leave")] ≠ ([] : List AlertEvent) :=
  ⟨rfl, by decide⟩

/-- C5 (amended): reconciliation is idempotent for an unchanged remote state
provided distinct tracked players resolve to distinct nicknames: if the first
run completes with post-state `s1`, the second run over the same remote state
returns `s1` unchanged and emits no alert events.  Without the
distinct-nickname proviso the property fails (see `c5_counterexample`). -/
theorem c5_execute_idempotent (cfg : Settings) (plasmo : Nat → PlasmoResponse)
    (s s1 : AnnState) (ev : List AlertEvent)
    (hT : s.targeted_players.Nodup) (hO : s.online_players.Nodup)
    (hinj : ∀ p ∈ s.targeted_players, ∀ q ∈ s.targeted_players, p ≠ q →
      ∀ n, (assert_outcome p (plasmo p)).2.nick = some n →
        (assert_outcome q (plasmo q)).2.nick ≠ some n)
    (hex : execute cfg plasmo s = .ok (s1, ev)) :
    execute cfg plasmo s1 = .ok (s1, []) := by
  unfold execute at hex
  cases hg : gatherExcept (s.targeted_players.map fun p => assert_player_id p (plasmo p)) with
  | error e =>
    rw [hg] at hex
    exact absurd hex (by simp)
  | ok rs =>
    rw [hg] at hex
    have hps : processResults cfg rs s = (s1, ev) := by simpa using hex
    obtain ⟨hrs_eq, hall⟩ := gatherExcept_map_ok_elim s.targeted_players
      (fun p => assert_player_id p (plasmo p)) (fun p => assert_outcome p (plasmo p)) rs
      (fun p _ v hv => (assert_outcome_of_ok hv).symm) hg
    subst hrs_eq
    have hmem1 : ∀ q : Nat, q ∈ s1.targeted_players ↔ q ∈ s.targeted_players ∧
        ∀ r ∈ s.targeted_players.map (fun p => assert_outcome p (plasmo p)),
          r.1 = false → r.2.id ≠ q := by
      intro q
      have := processResults_mem_targeted_iff cfg
        (s.targeted_players.map fun p => assert_outcome p (plasmo p)) s hT q
      rwa [hps] at this
    have hsubset : ∀ q ∈ s1.targeted_players, q ∈ s.targeted_players :=
      fun q hq => ((hmem1 q).mp hq).1
    have hflag : ∀ q ∈ s1.targeted_players, (assert_outcome q (plasmo q)).1 = true := by
      intro q hq
      obtain ⟨hqs, hnofalse⟩ := (hmem1 q).mp hq
      cases hfl : (assert_outcome q (plasmo q)).1 with
      | true => rfl
      | false =>
        exact absurd (assert_outcome_id q (plasmo q))
          (hnofalse (assert_outcome q (plasmo q)) (List.mem_map_of_mem _ hqs) hfl)
    have hP : (s.targeted_players.map fun p => assert_outcome p (plasmo p)).Pairwise
        (fun a b => ∀ m, a.2.nick = some m → b.2.nick ≠ some m) := by
      rw [List.pairwise_map]
      exact List.Pairwise.imp_of_mem
        (fun {a b} ha hb hne m hm => hinj a ha b hb hne m hm) hT
    have hall1 : ∀ q ∈ s1.targeted_players,
        assert_player_id q (plasmo q) = .ok (assert_outcome q (plasmo q)) :=
      fun q hq => hall q (hsubset q hq)
    have hg2 := gatherExcept_map_ok_intro s1.targeted_players
      (fun p => assert_player_id p (plasmo p)) (fun p => assert_outcome p (plasmo p)) hall1
    have hnoop : processResults cfg
        (s1.targeted_players.map fun p => assert_outcome p (plasmo p)) s1 = (s1, []) := by
      apply processResults_noop
      intro r hr
      obtain ⟨q, hq, rfl⟩ := List.mem_map.mp hr
      have hfq := hflag q hq
      refine ⟨hfq, (plasmo q).profile.nick, ?_, ?_⟩
      · have heta : assert_outcome q (plasmo q) =
            (true, (assert_outcome q (plasmo q)).2) := by
          rw [← hfq]
        have hok : assert_player_id q (plasmo q) =
            .ok (true, (assert_outcome q (plasmo q)).2) := by
          rw [hall1 q hq, ← heta]
        exact assert_player_id_true_nick hok
      · have heta : assert_outcome q (plasmo q) =
            (true, (assert_outcome q (plasmo q)).2) := by
          rw [← hfq]
        have hok : assert_player_id q (plasmo q) =
            .ok (true, (assert_outcome q (plasmo q)).2) := by
          rw [hall1 q hq, ← heta]
        have hnickeq := assert_player_id_true_nick hok
        have hiff := processResults_online_iff cfg
          (s.targeted_players.map fun p => assert_outcome p (plasmo p)) s hO hP
          (assert_outcome q (plasmo q)).2 ((plasmo q).profile.nick)
          (by rw [← heta]; exact List.mem_map_of_mem _ (hsubset q hq))
          hnickeq
        rw [hps] at hiff
        exact hiff.symm
    simp only [execute, hg2, hnoop]

/-- Witness for C5 (amended): after the first cycle moves `"dave"` online, a
second cycle over the unchanged remote state leaves the state unchanged and
emits nothing. -/
theorem c5_execute_idempotent_witness :
    execute demo_settings c5w_plasmo ⟨[1], ["dave"]⟩ = .ok (⟨[1], ["dave"]⟩, []) :=
  c5_execute_idempotent demo_settings c5w_plasmo ⟨[1], []⟩ ⟨[1], ["dave"]⟩
    [(some "dave", "join")] (by decide) (by decide)
    (fun p hp q hq hne => absurd ((List.mem_singleton.mp hp).trans
      (List.mem_singleton.mp hq).symm) hne)
    rfl

end Announcer
